import Mathlib

/-!
Verification of the asset-resolution core of django-vite
(src/django_vite/templatetags/django_vite.py) against its specification.

The Python module is shallowly embedded: the loader's per-process state
(registered configurations, manifest cache, static-URL cache) is passed
explicitly, the filesystem together with the JSON decoder is an oracle
mapping a manifest path to either the parsed manifest or the error string
of the raised exception, and Python exceptions are an explicit error type.
-/

/-! ## Generic string and association-list helpers -/

/-- Whether the first list is an initial segment of the second. -/
def listLeads : List Char → List Char → Bool
  | [], _ => true
  | _ :: _, [] => false
  | a :: as, b :: bs => if a = b then listLeads as bs else false

/-- Whether the first list occurs contiguously inside the second. -/
def listSub (n : List Char) : List Char → Bool
  | [] => listLeads n []
  | b :: bs => listLeads n (b :: bs) || listSub n bs

/-- Models the Python substring test `needle in hay` on strings. -/
def strHasSub (hay needle : String) : Bool := listSub needle.data hay.data

/-- Models the Python test `s.startswith(pre)`; used for URL path shapes. -/
def strStarts (s pre : String) : Bool := listLeads pre.data s.data

/-- Number of trailing slash characters of a string. -/
def trailingSlashCount (s : String) : Nat :=
  (s.data.reverse.takeWhile (fun c => decide (c = '/'))).length

/-- Whether the string ends with a slash, i.e. models Python `s[-1] == "/"`
on nonempty strings. -/
def hasTrailingSlash (s : String) : Bool :=
  match s.data.getLast? with
  | some c => decide (c = '/')
  | none => false

/-- Lookup in an insertion-ordered association list; models `d[k]` /
`k in d` on a Python dict represented with its insertion order. -/
def dictLookup {α : Type} (d : List (String × α)) (k : String) : Option α :=
  match d with
  | [] => none
  | p :: rest => if p.1 = k then some p.2 else dictLookup rest k

/-- Models Python dict item assignment `d[k] = v`: dicts keep unique keys,
so an existing binding is replaced in place (keeping its position) and a
new key is appended at the end of the insertion order. -/
def dictInsert {α : Type} : List (String × α) → String → α → List (String × α)
  | [], k, v => [(k, v)]
  | p :: rest, k, v => if p.1 = k then (k, v) :: rest else p :: dictInsert rest k v

/-- Models the Python dict display `{**a, **b}`: a copy of `a` updated by
assigning every binding of `b` in order. -/
def dictMerge {α : Type} (a b : List (String × α)) : List (String × α) :=
  b.foldl (fun d p => dictInsert d p.1 p.2) a

/-- Joins a list of strings with a separator; models `sep.join(parts)`. -/
def joinSep (sep : String) : List String → String
  | [] => ""
  | [a] => a
  | a :: rest => a ++ sep ++ joinSep sep rest

/-- Splits a character list at every slash; helper for `splitSlash`. -/
def splitSlashAux (acc : List Char) : List Char → List String
  | [] => [String.mk acc.reverse]
  | c :: rest =>
    if c = '/' then String.mk acc.reverse :: splitSlashAux [] rest
    else splitSlashAux (c :: acc) rest

/-- Models Python `s.split("/")`. -/
def splitSlash (s : String) : List String := splitSlashAux [] s.data

/-! ## Model of urllib.parse.urljoin

Restricted to the URL shapes this module joins: the base is either a plain
(possibly absolute) path such as a STATIC_URL value, or an origin of the
shape scheme://host:port, and the second argument is a path reference;
neither carries a query or fragment component. Within that fragment the
functions below follow CPython's urljoin: merge the base path with the
reference, drop empty interior segments of a relative reference, and
resolve dot segments. -/

/-- Splits off a leading scheme:// part; `none` when the URL has no scheme
before its first slash. -/
def splitScheme (acc : List Char) : List Char → Option (String × List Char)
  | ':' :: '/' :: '/' :: rest => some (String.mk (acc.reverse ++ [':', '/', '/']), rest)
  | '/' :: _ => none
  | c :: cs => splitScheme (c :: acc) cs
  | [] => none

/-- Models the CPython line `segments[1:-1] = filter(None, segments[1:-1])`:
empty interior segments of a merged relative path are removed. -/
def filterInterior (segs : List String) : List String :=
  match segs with
  | [] => []
  | [a] => [a]
  | a :: rest =>
    match rest.getLast? with
    | none => [a]
    | some last => a :: (rest.dropLast.filter (fun x => !decide (x = "")) ++ [last])

/-- Dot-segment resolution of RFC 3986 as CPython implements it: `..` pops
the previous segment (ignoring underflow), `.` is dropped, and a trailing
dot segment leaves a trailing slash. -/
def resolveDots (segs : List String) : List String :=
  let r := segs.foldl
    (fun acc seg =>
      if seg = ".." then acc.dropLast
      else if seg = "." then acc
      else acc ++ [seg]) []
  match segs.getLast? with
  | some s => if s = "." ∨ s = ".." then r ++ [""] else r
  | none => r

/-- Merges a base path with a path reference per CPython's urljoin: an
absolute reference replaces the base path, a relative one is appended to
the base path's directory with empty interior segments filtered out. -/
def joinPaths (bpath url : String) : String :=
  let segs :=
    if strStarts url "/" then splitSlash url
    else
      let bparts := splitSlash bpath
      let bparts :=
        match bparts.getLast? with
        | some s => if s = "" then bparts else bparts.dropLast
        | none => bparts
      filterInterior (bparts ++ splitSlash url)
  let p := joinSep "/" (resolveDots segs)
  if p = "" then "/" else p

/-- Model of `urllib.parse.urljoin` on the restricted fragment described
above: an empty argument returns the other one unchanged, a reference
carrying its own scheme is returned as is, and otherwise the paths are
merged, keeping the base's scheme://netloc origin when it has one. -/
def urljoin (base url : String) : String :=
  if base = "" then url
  else if url = "" then base
  else if (splitScheme [] url.data).isSome then url
  else
    match splitScheme [] base.data with
    | some (origin, rest) =>
      let netloc := rest.takeWhile (fun c => decide (c ≠ '/'))
      let bpath := String.mk (rest.drop netloc.length)
      origin ++ String.mk netloc ++ joinPaths bpath url
    | none => joinPaths base url

/-- Models `pathlib` path joining with `/` on the string fragments this
module uses: empty parts are dropped and an absolute second part replaces
the first. -/
def pathJoin (a b : String) : String :=
  if b = "" then a
  else if strStarts b "/" then b
  else if a = "" then b
  else if hasTrailingSlash a then a ++ b
  else a ++ "/" ++ b

/-! ## Data model (lines 13-96 of the source) -/

/-- The Django settings this module reads: `settings.STATIC_URL` and
`settings.STATIC_ROOT`. -/
structure Settings where
  STATIC_URL : String
  STATIC_ROOT : String
deriving DecidableEq, Repr

/-- Manifest entry, lines 13-22 of the source. Note: the source writes the
default of `isEntry` as the bare identifier `false`, which is an unbound
name in Python (see `evalIsEntryDefault` below); this runtime model uses
the intended boolean so the remaining operations can be analysed. -/
structure DjangoViteManifest where
  file : String
  src : String
  isEntry : Bool := false
  css : List String := []
  imports : List String := []
deriving DecidableEq, Repr

/-- Configuration record, lines 25-55 of the source. `staticUrlPrefix`
models the source field `static_url_` + `prefix`. -/
structure DjangoViteConfig where
  assets_path : String
  dev_mode : Bool := false
  dev_server_protocol : String := "http"
  dev_server_host : String := "localhost"
  dev_server_port : Nat := 3000
  ws_client_url : String := "@vite/client"
  staticUrlPrefix : String := ""
  legacy_polyfills_motif : String := "legacy-polyfills"
  manifest_path : String := ""
deriving DecidableEq, Repr

/-- Property `static_root`, lines 57-70 of the source. -/
def DjangoViteConfig.static_root (c : DjangoViteConfig) (settings : Settings) : String :=
  if c.dev_mode then c.assets_path
  else pathJoin settings.STATIC_ROOT c.staticUrlPrefix

/-- Method `get_computed_manifest_path`, lines 72-84 of the source: the
explicit `manifest_path` when truthy (nonempty), otherwise
`static_root / "manifest.json"`. -/
def DjangoViteConfig.get_computed_manifest_path (c : DjangoViteConfig) (settings : Settings) : String :=
  if c.manifest_path ≠ "" then c.manifest_path
  else pathJoin (c.static_root settings) "manifest.json"

/-- A parsed manifest: a Python dict in insertion order. -/
abbrev Manifest := List (String × DjangoViteManifest)

/-- Python exceptions raised by this module. -/
inductive PyErr where
  | runtimeError (msg : String)
  | typeError (msg : String)
  | keyError (key : String)
  | indexError
deriving DecidableEq, Repr

/-- The mutable singleton state of `DjangoViteAssetLoader`: `_configs`,
`_manifests` and `_static_urls`, lines 92-96 of the source. -/
structure LoaderState where
  configs : List (String × DjangoViteConfig)
  manifests : List (String × Manifest)
  static_urls : List (String × String)
deriving DecidableEq, Repr

/-- The filesystem plus JSON decoder, an external collaborator: maps a
manifest path to the parsed manifest, or to the message of the exception
raised while opening, reading or decoding it. -/
abbrev ManifestFs := String → Except String Manifest

/-! ## Name resolution of the isEntry default (line 20 of the source) -/

/-- Values a name can denote in the fragment of Python needed here. -/
inductive PyVal where
  | bool (b : Bool)
  | noneVal
deriving DecidableEq, Repr

/-- Python name lookup: the value bound to the name, or a NameError. -/
def lookupName (env : List (String × PyVal)) (n : String) : Except String PyVal :=
  match dictLookup env n with
  | some v => .ok v
  | none => .error ("NameError: name " ++ n ++ " is not defined")

/-- The builtin constant names in scope while the class body of
`DjangoViteManifest` executes at module import. -/
def builtinConstEnv : List (String × PyVal) :=
  [("False", .bool false), ("True", .bool true), ("None", .noneVal)]

/-- Line 20 of the source spells the default value of `isEntry` as the
bare identifier `false` (lowercase). -/
def isEntryDefaultIdent : String := "false"

/-- Evaluation of the isEntry default expression when the class body of
`DjangoViteManifest` executes. -/
def evalIsEntryDefault : Except String PyVal :=
  lookupName builtinConstEnv isEntryDefaultIdent

/-! ## Loader operations (lines 101-576 of the source) -/

/-- Method `_get_config`, lines 341-359: the registered configuration, or
a RuntimeError naming the missing key. -/
def _get_config (st : LoaderState) (key : String) : Except PyErr DjangoViteConfig :=
  match dictLookup st.configs key with
  | some c => .ok c
  | none => .error (.runtimeError ("Cannot find \"" ++ key ++ "\" configuration"))

/-- Method `_get_static_url`, lines 414-433: on a cache miss it joins
STATIC_URL with the configuration's static URL piece, appends a slash
unless the last character already is one (`static_url[-1]`, an IndexError
on the empty string), and caches the result. -/
def _get_static_url (settings : Settings) (st : LoaderState) (key : String) :
    (Except PyErr String) × LoaderState :=
  match dictLookup st.static_urls key with
  | some s => (.ok s, st)
  | none =>
    match _get_config st key with
    | .error e => (.error e, st)
    | .ok config =>
      let static_url := urljoin settings.STATIC_URL config.staticUrlPrefix
      match static_url.data.getLast? with
      | none => (.error .indexError, st)
      | some c =>
        let s := if c = '/' then static_url else static_url ++ "/"
        (.ok s, { st with static_urls := dictInsert st.static_urls key s })

/-- Method `_parse_manifest`, lines 361-392: configuration lookup (outside
the try block, so its error propagates as is), then one file read plus
JSON decode, any failure of which is wrapped into a RuntimeError naming
the attempted path and the cause. -/
def _parse_manifest (settings : Settings) (fs : ManifestFs) (st : LoaderState)
    (key : String) : Except PyErr Manifest :=
  match _get_config st key with
  | .error e => .error e
  | .ok config =>
    match fs (config.get_computed_manifest_path settings) with
    | .ok m => .ok m
    | .error err =>
      .error (.runtimeError ("Cannot read Vite manifest file at " ++
        config.get_computed_manifest_path settings ++ " : " ++ err))

/-- Method `_get_manifest`, lines 394-412: return the cached parse for the
key, parsing and caching on the first call. The third component counts the
file reads the call performed (0 on a cache hit, 1 otherwise); a failed
parse propagates without touching the cache. -/
def _get_manifest (settings : Settings) (fs : ManifestFs) (st : LoaderState)
    (key : String) : (Except PyErr Manifest) × LoaderState × Nat :=
  match dictLookup st.manifests key with
  | some m => (.ok m, st, 0)
  | none =>
    match _parse_manifest settings fs st key with
    | .ok m => (.ok m, { st with manifests := dictInsert st.manifests key m }, 1)
    | .error e => (.error e, st, 1)

/-- Static method `_generate_script_tag`, lines 519-539: attributes are
rendered as space-joined key="value" pairs, with src always last. -/
def _generate_script_tag (src : String) (attrs : List (String × String)) : String :=
  let attrs_str := joinSep " " (attrs.map (fun p => p.1 ++ "=\"" ++ p.2 ++ "\""))
  "<script " ++ attrs_str ++ " src=\"" ++ src ++ "\"></script>"

/-- Static method `_generate_stylesheet_tag`, lines 541-553. -/
def _generate_stylesheet_tag (href : String) : String :=
  "<link rel=\"stylesheet\" href=\"" ++ href ++ "\" />"

/-- Static method `_generate_vite_server_url`, lines 555-576: the asset
path joined onto the static URL, resolved against the dev server origin. -/
def _generate_vite_server_url (path static_url : String) (config : DjangoViteConfig) : String :=
  urljoin
    (config.dev_server_protocol ++ "://" ++ config.dev_server_host ++ ":" ++
      toString config.dev_server_port)
    (urljoin static_url path)

/-- The dict display `{"type": "module", "crossorigin": "", **kwargs}` of
line 153 of the source: the script attributes of `generate_vite_asset`. -/
def scriptsAttrs (kwargs : List (String × String)) : List (String × String) :=
  dictMerge [("type", "module"), ("crossorigin", "")] kwargs

/-- Method `_generate_css_files_of_asset`, lines 168-208. The recursive
call on line 193 is `self._generate_css_files_of_asset(import_path,
already_processed)`: two positional arguments for a method whose signature
requires three, so the first iteration of the imports loop raises a
TypeError before any recursion happens; an entry with no imports renders
one stylesheet tag per css path not already processed, appending every
css path to `already_processed` (a list mutated in place, returned here as
the third component). `manifest[path]` on a missing key is a KeyError. -/
def _generate_css_files_of_asset (settings : Settings) (fs : ManifestFs)
    (st : LoaderState) (path key : String) (already_processed : List String) :
    (Except PyErr (List String)) × LoaderState × List String :=
  match _get_static_url settings st key with
  | (.error e, st1) => (.error e, st1, already_processed)
  | (.ok static_url, st1) =>
    match _get_manifest settings fs st1 key with
    | (.error e, st2, _) => (.error e, st2, already_processed)
    | (.ok manifest, st2, _) =>
      match dictLookup manifest path with
      | none => (.error (.keyError path), st2, already_processed)
      | some manifest_entry =>
        match manifest_entry.imports with
        | _ :: _ =>
          (.error (.typeError
            ("_generate_css_files_of_asset() missing 1 required positional " ++
              "argument: already_processed")), st2, already_processed)
        | [] =>
          let step := fun (acc : List String × List String) (css_path : String) =>
            ( if acc.2.contains css_path then acc.1
              else acc.1 ++ [_generate_stylesheet_tag (urljoin static_url css_path)]
            , acc.2 ++ [css_path])
          let r := manifest_entry.css.foldl step ([], already_processed)
          (.ok r.1, st2, r.2)

/-- Method `generate_vite_asset`, lines 101-166: in dev mode a single
module script tag against the dev server; in production a manifest lookup
(RuntimeError naming the path and manifest location when absent), the CSS
dependency walk, and the entry's own script tag, joined by newlines. -/
def generate_vite_asset (settings : Settings) (fs : ManifestFs) (st : LoaderState)
    (path key : String) (kwargs : List (String × String)) :
    (Except PyErr String) × LoaderState :=
  match _get_config st key with
  | .error e => (.error e, st)
  | .ok config =>
    match _get_static_url settings st key with
    | (.error e, st1) => (.error e, st1)
    | (.ok static_url, st1) =>
      if config.dev_mode then
        (.ok (_generate_script_tag (_generate_vite_server_url path static_url config)
          [("type", "module")]), st1)
      else
        match _get_manifest settings fs st1 key with
        | (.error e, st2, _) => (.error e, st2)
        | (.ok manifest, st2, _) =>
          match dictLookup manifest path with
          | none =>
            (.error (.runtimeError ("Cannot find " ++ path ++ " in Vite manifest at " ++
              config.get_computed_manifest_path settings)), st2)
          | some entry =>
            match _generate_css_files_of_asset settings fs st2 path key [] with
            | (.error e, st3, _) => (.error e, st3)
            | (.ok css_tags, st3, _) =>
              (.ok (joinSep "\n" (css_tags ++
                [_generate_script_tag (urljoin static_url entry.file)
                  (scriptsAttrs kwargs)])), st3)

/-- Method `generate_vite_asset_url`, lines 210-243. In dev mode the
source (line 231) calls `_generate_vite_server_url(path, config)`: two
positional arguments for a static method requiring three, a TypeError.
In production: manifest lookup, RuntimeError naming the path and the
manifest location when absent, else the entry's file joined onto the
static URL. -/
def generate_vite_asset_url (settings : Settings) (fs : ManifestFs) (st : LoaderState)
    (path key : String) : (Except PyErr String) × LoaderState :=
  match _get_config st key with
  | .error e => (.error e, st)
  | .ok config =>
    match _get_static_url settings st key with
    | (.error e, st1) => (.error e, st1)
    | (.ok static_url, st1) =>
      if config.dev_mode then
        (.error (.typeError
          "_generate_vite_server_url() missing 1 required positional argument: config"), st1)
      else
        match _get_manifest settings fs st1 key with
        | (.error e, st2, _) => (.error e, st2)
        | (.ok manifest, st2, _) =>
          match dictLookup manifest path with
          | none =>
            (.error (.runtimeError ("Cannot find " ++ path ++ " in Vite manifest at " ++
              config.get_computed_manifest_path settings)), st2)
          | some entry => (.ok (urljoin static_url entry.file), st2)

/-- The linear scan of lines 280-285: the first manifest entry, in
insertion order, whose key contains the motif. -/
def findPolyfills (motif : String) : Manifest → Option (String × DjangoViteManifest)
  | [] => none
  | p :: rest => if strHasSub p.1 motif then some p else findPolyfills motif rest

/-- Method `generate_vite_legacy_polyfills`, lines 245-290. The source
fetches the configuration, the manifest and the static URL (lines
271-273) before testing `dev_mode`, so a manifest load failure propagates
even in dev mode; dev mode otherwise returns the empty string, and
production returns a nomodule/crossorigin script tag for the first entry
whose key contains the motif, or a RuntimeError when none does. -/
def generate_vite_legacy_polyfills (settings : Settings) (fs : ManifestFs)
    (st : LoaderState) (key : String) (kwargs : List (String × String)) :
    (Except PyErr String) × LoaderState :=
  match _get_config st key with
  | .error e => (.error e, st)
  | .ok config =>
    match _get_manifest settings fs st key with
    | (.error e, st1, _) => (.error e, st1)
    | (.ok manifest, st1, _) =>
      match _get_static_url settings st1 key with
      | (.error e, st2) => (.error e, st2)
      | (.ok static_url, st2) =>
        if config.dev_mode then (.ok "", st2)
        else
          let scripts_attrs := dictMerge [("nomodule", ""), ("crossorigin", "")] kwargs
          match findPolyfills config.legacy_polyfills_motif manifest with
          | some p =>
            (.ok (_generate_script_tag (urljoin static_url p.2.file) scripts_attrs), st2)
          | none =>
            (.error (.runtimeError ("Vite legacy polyfills not found in manifest at " ++
              config.get_computed_manifest_path settings)), st2)

/-! ## Concrete configurations, manifests and states used as inputs -/

/-- Django settings with the usual static URL shape. -/
def demoSettings : Settings := { STATIC_URL := "/static/", STATIC_ROOT := "staticroot" }

/-- A production-mode configuration with all defaults. -/
def demoConfig : DjangoViteConfig := { assets_path := "assets" }

/-- A dev-mode configuration with all other fields defaulted. -/
def devConfig : DjangoViteConfig := { assets_path := "assets", dev_mode := true }

/-- The manifest of the specification's worked example: entry `a` imports
`b`, and `a.css` occurs in the css lists of both. -/
def demoManifest : Manifest :=
  [ ("a", { file := "a.123.js", src := "a", css := ["a.css"], imports := ["b"] })
  , ("b", { file := "b.456.js", src := "b", css := ["a.css", "b.css"], imports := [] }) ]

/-- A manifest whose second entry's key contains the legacy polyfills
motif. -/
def legacyManifest : Manifest :=
  [ ("main", { file := "main.js", src := "main" })
  , ("legacy-polyfills-abc", { file := "poly.js", src := "poly" }) ]

/-- A filesystem holding `demoManifest` at the production manifest path of
`demoConfig` and nothing else. -/
def demoFs : ManifestFs := fun p =>
  if p = "staticroot/manifest.json" then .ok demoManifest
  else .error "No such file or directory"

/-- A filesystem holding `legacyManifest` at the production manifest path
of `demoConfig` and nothing else. -/
def legacyFs : ManifestFs := fun p =>
  if p = "staticroot/manifest.json" then .ok legacyManifest
  else .error "No such file or directory"

/-- Freshly initialised loader state with `demoConfig` registered as the
default configuration and both caches empty. -/
def demoState : LoaderState :=
  { configs := [("default", demoConfig)], manifests := [], static_urls := [] }

/-- Freshly initialised loader state with `devConfig` registered as the
default configuration and both caches empty. -/
def devState : LoaderState :=
  { configs := [("default", devConfig)], manifests := [], static_urls := [] }

/-- Loader state in which the static URL and the demo manifest are already
cached for the default configuration. -/
def demoStateLoaded : LoaderState :=
  { configs := [("default", demoConfig)]
  , manifests := [("default", demoManifest)]
  , static_urls := [("default", "/static/")] }

/-! ## Helper lemmas -/

theorem strData_append (s t : String) : (s ++ t).data = s.data ++ t.data := by
  cases s; cases t; rfl

theorem listLeads_refl (n : List Char) : listLeads n n = true := by
  induction n with
  | nil => rfl
  | cons a as ih => simp [listLeads, ih]

theorem listLeads_mono (n : List Char) :
    ∀ l t, listLeads n l = true → listLeads n (l ++ t) = true := by
  induction n with
  | nil => intro l t _; rfl
  | cons a as ih =>
    intro l t h
    cases l with
    | nil => simp [listLeads] at h
    | cons b bs =>
      simp only [listLeads] at h ⊢
      by_cases hab : a = b
      · simp only [hab, if_pos rfl] at h ⊢
        exact ih bs t h
      · simp [if_neg hab] at h

theorem listSub_nil_needle (l : List Char) : listSub [] l = true := by
  cases l with
  | nil => rfl
  | cons b bs => simp [listSub, listLeads]

theorem listSub_of_leads (n l : List Char) (h : listLeads n l = true) :
    listSub n l = true := by
  cases l with
  | nil => simpa [listSub] using h
  | cons b bs => simp [listSub, h]

theorem listSub_cons (n : List Char) (b : Char) (bs : List Char)
    (h : listSub n bs = true) : listSub n (b :: bs) = true := by
  simp [listSub, h]

theorem listSub_append_left (n : List Char) :
    ∀ a l, listSub n l = true → listSub n (a ++ l) = true := by
  intro a
  induction a with
  | nil => intro l h; simpa using h
  | cons c cs ih =>
    intro l h
    simpa using listSub_cons n c (cs ++ l) (ih l h)

theorem listSub_append_right (n : List Char) :
    ∀ l, listSub n l = true → ∀ t, listSub n (l ++ t) = true := by
  intro l
  induction l with
  | nil =>
    intro h t
    have hn : n = [] := by
      cases n with
      | nil => rfl
      | cons a as => simp [listSub, listLeads] at h
    subst hn
    exact listSub_nil_needle t
  | cons b bs ih =>
    intro h t
    simp only [listSub, Bool.or_eq_true] at h
    rcases h with h | h
    · have : listLeads n ((b :: bs) ++ t) = true := listLeads_mono n (b :: bs) t h
      exact listSub_of_leads n ((b :: bs) ++ t) this
    · exact listSub_cons n b (bs ++ t) (ih h t)

theorem strHasSub_of_parts (a p b : String) (s : String)
    (h : s.data = a.data ++ p.data ++ b.data) : strHasSub s p = true := by
  unfold strHasSub
  rw [h]
  have h1 : listSub p.data p.data =
      true := listSub_of_leads p.data p.data (listLeads_refl p.data)
  have h2 : listSub p.data (p.data ++ b.data) = true :=
    listSub_append_right p.data p.data h1 b.data
  have h3 : listSub p.data (a.data ++ (p.data ++ b.data)) = true :=
    listSub_append_left p.data a.data (p.data ++ b.data) h2
  simpa [List.append_assoc] using h3

theorem hasTrailingSlash_concat (u : String) : hasTrailingSlash (u ++ "/") = true := by
  have hd : (u ++ "/").data = u.data ++ ['/'] := strData_append u "/"
  simp [hasTrailingSlash, hd, List.getLast?_concat]

theorem dictLookup_dictInsert {α : Type} (d : List (String × α)) (k0 k : String) (v0 : α) :
    dictLookup (dictInsert d k0 v0) k = if k = k0 then some v0 else dictLookup d k := by
  induction d with
  | nil =>
    by_cases h : k = k0
    · subst h; simp [dictInsert, dictLookup]
    · simp only [dictInsert, dictLookup]
      rw [if_neg (fun hc : k0 = k => h hc.symm), if_neg h]
  | cons p rest ih =>
    by_cases hp : p.1 = k0
    · simp only [dictInsert, if_pos hp, dictLookup]
      by_cases h : k = k0
      · subst h
        rw [if_pos rfl, if_pos rfl]
      · rw [if_neg (fun hc : k0 = k => h hc.symm), if_neg h,
          if_neg (fun hc : p.1 = k => h (hp.symm.trans hc).symm)]
    · simp only [dictInsert, if_neg hp, dictLookup]
      by_cases h2 : p.1 = k
      · have hk : ¬ k = k0 := fun hc => hp (h2.trans hc)
        rw [if_pos h2, if_neg hk, if_pos h2]
      · simp only [if_neg h2]
        rw [ih]

theorem dictLookup_eq_none_of_not_mem {α : Type} (d : List (String × α)) (k : String)
    (h : ∀ p ∈ d, p.1 ≠ k) : dictLookup d k = none := by
  induction d with
  | nil => rfl
  | cons p rest ih =>
    have hp : p.1 ≠ k := h p (List.mem_cons_self p rest)
    simp only [dictLookup, if_neg hp]
    exact ih (fun q hq => h q (List.mem_cons_of_mem p hq))

theorem dictLookup_mem {α : Type} (d : List (String × α)) (k : String) (v : α)
    (h : dictLookup d k = some v) : (k, v) ∈ d := by
  induction d with
  | nil => simp [dictLookup] at h
  | cons p rest ih =>
    by_cases hp : p.1 = k
    · simp only [dictLookup, if_pos hp] at h
      have : p = (k, v) := by
        cases p
        simp only [Option.some.injEq] at h
        simp_all
      exact this ▸ List.mem_cons_self p rest
    · simp only [dictLookup, if_neg hp] at h
      exact List.mem_cons_of_mem p (ih h)

theorem dictLookup_dictMerge {α : Type} (b : List (String × α)) :
    ∀ a : List (String × α), (b.map Prod.fst).Nodup → ∀ k,
      dictLookup (dictMerge a b) k =
        Option.orElse (dictLookup b k) (fun _ => dictLookup a k) := by
  induction b with
  | nil =>
    intro a _ k
    rfl
  | cons q bs ih =>
    intro a hnd k
    rw [List.map_cons, List.nodup_cons] at hnd
    obtain ⟨hq, hnd'⟩ := hnd
    have step : dictMerge a (q :: bs) = dictMerge (dictInsert a q.1 q.2) bs := rfl
    rw [step, ih (dictInsert a q.1 q.2) hnd' k]
    by_cases h : k = q.1
    · subst h
      have hbs : dictLookup bs q.1 = none := by
        apply dictLookup_eq_none_of_not_mem
        intro p hp hc
        exact hq (hc ▸ List.mem_map_of_mem Prod.fst hp)
      have h1 : dictLookup (dictInsert a q.1 q.2) q.1 = some q.2 := by
        rw [dictLookup_dictInsert]
        exact if_pos rfl
      have h2 : dictLookup (q :: bs) q.1 = some q.2 := by
        simp [dictLookup]
      rw [hbs, h1, h2]
      rfl
    · have h1 : dictLookup (dictInsert a q.1 q.2) k = dictLookup a k := by
        rw [dictLookup_dictInsert]
        exact if_neg h
      have h2 : dictLookup (q :: bs) k = dictLookup bs k := by
        simp only [dictLookup]
        rw [if_neg (fun hc : q.1 = k => h hc.symm)]
      rw [h1, h2]

theorem findPolyfills_append (motif : String) (pre : Manifest)
    (k : String) (e : DjangoViteManifest) (rest : Manifest)
    (hpre : ∀ p ∈ pre, strHasSub p.1 motif = false)
    (hk : strHasSub k motif = true) :
    findPolyfills motif (pre ++ (k, e) :: rest) = some (k, e) := by
  induction pre with
  | nil => simp [findPolyfills, hk]
  | cons q qs ih =>
    have hq : strHasSub q.1 motif = false := hpre q (List.mem_cons_self q qs)
    simp only [List.cons_append, findPolyfills, hq]
    simp only [Bool.false_eq_true, if_false]
    exact ih (fun p hp => hpre p (List.mem_cons_of_mem q hp))

theorem findPolyfills_none (motif : String) (m : Manifest)
    (h : ∀ p ∈ m, strHasSub p.1 motif = false) :
    findPolyfills motif m = none := by
  induction m with
  | nil => rfl
  | cons q qs ih =>
    have hq : strHasSub q.1 motif = false := h q (List.mem_cons_self q qs)
    simp only [findPolyfills, hq, Bool.false_eq_true, if_false]
    exact ih (fun p hp => h p (List.mem_cons_of_mem q hp))

/-! ## Further concrete inputs for witnesses -/

/-- A filesystem holding `demoManifest` at the dev-mode manifest path of
`devConfig`. -/
def devFsWithManifest : ManifestFs := fun p =>
  if p = "assets/manifest.json" then .ok demoManifest
  else .error "No such file or directory"

/-- Loader state after `_get_static_url` has been cached for the default
configuration but before any manifest load. -/
def demoStatePartial : LoaderState :=
  { configs := [("default", demoConfig)], manifests := [], static_urls := [("default", "/static/")] }

/-- Loader state after the legacy manifest has been loaded but before the
static URL is cached. -/
def legacyStateLoaded : LoaderState :=
  { configs := [("default", demoConfig)]
  , manifests := [("default", legacyManifest)]
  , static_urls := [] }

/-- Loader state with both the legacy manifest and the static URL cached. -/
def legacyStateFull : LoaderState :=
  { configs := [("default", demoConfig)]
  , manifests := [("default", legacyManifest)]
  , static_urls := [("default", "/static/")] }

/-! ## Claim theorems -/

/-- C1: the claim says that in production mode, on the manifest mapping
`a` to file a.123.js, css [a.css], imports [b] and `b` to file b.456.js,
css [a.css, b.css], `generate_vite_asset "a"` returns the link tags for
a.css and b.css (deduplicated) followed by the script tag for a.123.js.
On the code this fails: the recursive call of the CSS walk (line 193 of
the source) passes two positional arguments to a method requiring three,
so the call raises a TypeError instead of returning any tags. -/
theorem c1_generate_vite_asset_raises_type_error :
    (generate_vite_asset demoSettings demoFs demoState "a" "default" []).1 =
      .error (.typeError
        ("_generate_css_files_of_asset() missing 1 required positional " ++
          "argument: already_processed")) := rfl

/-- C2: the claim says that with dev_mode true,
`generate_vite_asset_url path` returns the dev server URL
`join(devServerOrigin, join(staticUrl, path))`. On the code this fails:
line 231 of the source calls `_generate_vite_server_url(path, config)`,
two positional arguments for a static method requiring three, raising a
TypeError for every dev-mode call. -/
theorem c2_generate_vite_asset_url_dev_raises_type_error :
    (generate_vite_asset_url demoSettings demoFs devState "main.js" "default").1 =
      .error (.typeError
        "_generate_vite_server_url() missing 1 required positional argument: config") := rfl

/-- C3: the claim says that with dev_mode true,
`generate_vite_legacy_polyfills` returns the empty string without raising,
whether or not a manifest file exists. On the code this fails: lines
271-273 of the source load the manifest before the dev_mode test, so a
missing or unreadable manifest raises a RuntimeError even in dev mode
(first conjunct); only when the manifest loads does dev mode return the
empty string (second conjunct). -/
theorem c3_legacy_polyfills_dev_manifest_error :
    (generate_vite_legacy_polyfills demoSettings demoFs devState "default" []).1 =
      .error (.runtimeError
        "Cannot read Vite manifest file at assets/manifest.json : No such file or directory") ∧
    (generate_vite_legacy_polyfills demoSettings devFsWithManifest devState "default" []).1 =
      .ok "" := ⟨rfl, rfl⟩

/-- C4: the claim says the default of the optional isEntry field of
`DjangoViteManifest` is the boolean false, not an unbound name. On the
code this fails: line 20 of the source spells the default as the bare
lowercase identifier `false`, which no enclosing Python scope binds (the
builtin constant is `False`), so evaluating the class body when the
module loads raises a NameError; the second conjunct shows the intended
capitalised name does resolve to the boolean. -/
theorem c4_is_entry_default_name_error :
    evalIsEntryDefault = .error "NameError: name false is not defined" ∧
    lookupName builtinConstEnv "False" = .ok (.bool false) := ⟨rfl, rfl⟩

/-- C7: the claim says the recursive CSS dependency walk terminates for
every manifest whose imports graph is acyclic, the recursion over imports
being well-founded under that precondition. On the code the described
recursion never runs: on the acyclic two-entry manifest `a -> b` the walk
raises a TypeError at the very first import edge (the wrong-arity
self-call of line 193) instead of recursing (first conjunct), while an
entry with no imports is processed normally (second conjunct). -/
theorem c7_css_walk_import_edge_type_error :
    (_generate_css_files_of_asset demoSettings demoFs demoState "a" "default" []).1 =
      .error (.typeError
        ("_generate_css_files_of_asset() missing 1 required positional " ++
          "argument: already_processed")) ∧
    (_generate_css_files_of_asset demoSettings demoFs demoState "b" "default" []).1 =
      .ok [_generate_stylesheet_tag (urljoin "/static/" "a.css"),
        _generate_stylesheet_tag (urljoin "/static/" "b.css")] := ⟨rfl, rfl⟩

/-- C6 counterexample: with host static base URL `/static//` and the
default empty static URL piece, `_get_static_url` returns `/static//`,
which ends with two trailing slashes, refuting the claim that the result
always ends with exactly one trailing slash. -/
theorem c6_static_url_two_trailing_slashes :
    (_get_static_url ⟨"/static//", "staticroot"⟩ demoState "default").1 = .ok "/static//" ∧
    trailingSlashCount "/static//" = 2 := ⟨rfl, rfl⟩

/-- C5: manifest caching is monotonic. A cached manifest is returned as is
with no file read and no state change; a successful call leaves the parsed
manifest in the cache under its key (so every later call is a cache hit
returning the identical value with zero reads); a failed load leaves the
state unchanged and the cache entry absent, so the next call retries the
read. -/
theorem c5_manifest_cache_monotonic (settings : Settings) (fs : ManifestFs)
    (st : LoaderState) (key : String) :
    (∀ m, dictLookup st.manifests key = some m →
        _get_manifest settings fs st key = (.ok m, st, 0)) ∧
    (∀ m, (_get_manifest settings fs st key).1 = .ok m →
        dictLookup (_get_manifest settings fs st key).2.1.manifests key = some m) ∧
    (∀ e, (_get_manifest settings fs st key).1 = .error e →
        (_get_manifest settings fs st key).2.1 = st ∧
        dictLookup st.manifests key = none ∧
        (_get_manifest settings fs st key).2.2 = 1) := by
  refine ⟨?_, ?_, ?_⟩
  · intro m hm
    simp [_get_manifest, hm]
  · intro m hm
    cases hc : dictLookup st.manifests key with
    | some m0 =>
      have hres : _get_manifest settings fs st key = (.ok m0, st, 0) := by
        simp [_get_manifest, hc]
      rw [hres] at hm
      have hm' : Except.ok (ε := PyErr) m0 = Except.ok m := hm
      injection hm' with hmm
      subst hmm
      rw [hres]
      exact hc
    | none =>
      cases hp : _parse_manifest settings fs st key with
      | ok m0 =>
        have hres : _get_manifest settings fs st key =
            (.ok m0, { st with manifests := dictInsert st.manifests key m0 }, 1) := by
          simp [_get_manifest, hc, hp]
        rw [hres] at hm
        have hm' : Except.ok (ε := PyErr) m0 = Except.ok m := hm
        injection hm' with hmm
        subst hmm
        rw [hres]
        show dictLookup (dictInsert st.manifests key m0) key = some m0
        rw [dictLookup_dictInsert]
        exact if_pos rfl
      | error e0 =>
        have hres : _get_manifest settings fs st key = (.error e0, st, 1) := by
          simp [_get_manifest, hc, hp]
        rw [hres] at hm
        exact absurd hm (by simp)
  · intro e he
    cases hc : dictLookup st.manifests key with
    | some m0 =>
      have hres : _get_manifest settings fs st key = (.ok m0, st, 0) := by
        simp [_get_manifest, hc]
      rw [hres] at he
      exact absurd he (by simp)
    | none =>
      cases hp : _parse_manifest settings fs st key with
      | ok m0 =>
        have hres : _get_manifest settings fs st key =
            (.ok m0, { st with manifests := dictInsert st.manifests key m0 }, 1) := by
          simp [_get_manifest, hc, hp]
        rw [hres] at he
        exact absurd he (by simp)
      | error e0 =>
        have hres : _get_manifest settings fs st key = (.error e0, st, 1) := by
          simp [_get_manifest, hc, hp]
        rw [hres]
        exact ⟨rfl, rfl, rfl⟩

/-- C5 witness: on the loaded demo state the cached demo manifest is
returned unchanged with zero file reads. -/
theorem c5_manifest_cache_monotonic_witness :
    _get_manifest demoSettings demoFs demoStateLoaded "default" =
      (.ok demoManifest, demoStateLoaded, 0) :=
  (c5_manifest_cache_monotonic demoSettings demoFs demoStateLoaded "default").1
    demoManifest rfl

/-- C6 as amended: whenever `_get_static_url` returns a string (from a
cache whose entries all end with a slash, as every entry it writes does),
that string ends with at least one trailing slash; the counterexample
shows that more than one trailing slash is possible, so exactly one is not
guaranteed. -/
theorem c6_static_url_ends_with_slash (settings : Settings) (st : LoaderState)
    (key s : String) (st1 : LoaderState)
    (hinv : ∀ p ∈ st.static_urls, hasTrailingSlash p.2 = true)
    (h : _get_static_url settings st key = (.ok s, st1)) :
    hasTrailingSlash s = true := by
  cases hc : dictLookup st.static_urls key with
  | some s0 =>
    simp only [_get_static_url, hc] at h
    rw [Prod.mk.injEq] at h
    obtain ⟨h1, _⟩ := h
    injection h1 with hs
    rw [← hs]
    exact hinv (key, s0) (dictLookup_mem _ _ _ hc)
  | none =>
    cases hg : _get_config st key with
    | error e =>
      simp only [_get_static_url, hc, hg] at h
      rw [Prod.mk.injEq] at h
      exact absurd h.1 (by simp)
    | ok config =>
      cases hl : (urljoin settings.STATIC_URL config.staticUrlPrefix).data.getLast? with
      | none =>
        simp only [_get_static_url, hc, hg, hl] at h
        rw [Prod.mk.injEq] at h
        exact absurd h.1 (by simp)
      | some c =>
        simp only [_get_static_url, hc, hg, hl] at h
        rw [Prod.mk.injEq] at h
        obtain ⟨h1, _⟩ := h
        injection h1 with hs
        by_cases hcs : c = '/'
        · rw [if_pos hcs] at hs
          rw [← hs]
          simp [hasTrailingSlash, hl, hcs]
        · rw [if_neg hcs] at hs
          rw [← hs]
          exact hasTrailingSlash_concat _

/-- C6 witness: on the usual `/static/` base with the default empty static
URL piece, the returned static URL ends with a slash. -/
theorem c6_static_url_ends_with_slash_witness : hasTrailingSlash "/static/" = true :=
  c6_static_url_ends_with_slash demoSettings demoState "default" "/static/"
    demoStatePartial (by intro p hp; simp [demoState] at hp) rfl

/-- C8: in production mode, once the configuration, static URL and
manifest have been obtained, `generate_vite_asset_url` fails for a path
absent from the manifest with a RuntimeError whose message contains that
exact path and the manifest's resolved location, and returns exactly
`urljoin staticUrl entry.file` for a present path. -/
theorem c8_asset_url_production (settings : Settings) (fs : ManifestFs)
    (st : LoaderState) (key path : String) (config : DjangoViteConfig)
    (su : String) (st1 : LoaderState) (m : Manifest) (st2 : LoaderState) (n : Nat)
    (hc : _get_config st key = .ok config)
    (hdev : config.dev_mode = false)
    (hsu : _get_static_url settings st key = (.ok su, st1))
    (hm : _get_manifest settings fs st1 key = (.ok m, st2, n)) :
    (dictLookup m path = none →
        (generate_vite_asset_url settings fs st path key).1 =
          .error (.runtimeError ("Cannot find " ++ path ++ " in Vite manifest at " ++
            config.get_computed_manifest_path settings)) ∧
        strHasSub ("Cannot find " ++ path ++ " in Vite manifest at " ++
          config.get_computed_manifest_path settings) path = true ∧
        strHasSub ("Cannot find " ++ path ++ " in Vite manifest at " ++
          config.get_computed_manifest_path settings)
          (config.get_computed_manifest_path settings) = true) ∧
    (∀ entry, dictLookup m path = some entry →
        (generate_vite_asset_url settings fs st path key).1 =
          .ok (urljoin su entry.file)) := by
  constructor
  · intro hlook
    refine ⟨?_, ?_, ?_⟩
    · simp only [generate_vite_asset_url, hc, hsu, hm, hdev, hlook,
        Bool.false_eq_true, if_false]
    · apply strHasSub_of_parts "Cannot find " path
        (" in Vite manifest at " ++ config.get_computed_manifest_path settings)
      simp [strData_append, List.append_assoc]
    · apply strHasSub_of_parts
        ("Cannot find " ++ path ++ " in Vite manifest at ")
        (config.get_computed_manifest_path settings) ""
      simp [strData_append, List.append_assoc]
  · intro entry hlook
    simp only [generate_vite_asset_url, hc, hsu, hm, hdev, hlook,
      Bool.false_eq_true, if_false]

/-- C8 witness: on the demo manifest, the path `missing` yields the
RuntimeError naming the path and the manifest location, while the present
path `b` resolves to its hashed file joined onto the static URL. -/
theorem c8_asset_url_production_witness :
    (generate_vite_asset_url demoSettings demoFs demoState "missing" "default").1 =
      .error (.runtimeError ("Cannot find " ++ "missing" ++ " in Vite manifest at " ++
        demoConfig.get_computed_manifest_path demoSettings)) ∧
    (generate_vite_asset_url demoSettings demoFs demoState "b" "default").1 =
      .ok (urljoin "/static/" "b.456.js") := by
  constructor
  · exact ((c8_asset_url_production demoSettings demoFs demoState "default" "missing"
      demoConfig "/static/" demoStatePartial demoManifest demoStateLoaded 1
      rfl rfl rfl rfl).1 rfl).1
  · exact (c8_asset_url_production demoSettings demoFs demoState "default" "b"
      demoConfig "/static/" demoStatePartial demoManifest demoStateLoaded 1
      rfl rfl rfl rfl).2
      { file := "b.456.js", src := "b", css := ["a.css", "b.css"], imports := [] } rfl

/-- C9: in production mode, once the configuration, manifest and static
URL have been obtained (in the source's order), the legacy polyfills
helper scans the manifest entries in insertion order, returning the
nomodule/crossorigin script tag of the first entry whose key contains the
configured motif, and fails with a RuntimeError naming the manifest
location when no key contains it. -/
theorem c9_legacy_polyfills_production_scan (settings : Settings) (fs : ManifestFs)
    (st : LoaderState) (key : String) (kwargs : List (String × String))
    (config : DjangoViteConfig) (m : Manifest) (st1 : LoaderState) (n : Nat)
    (su : String) (st2 : LoaderState)
    (hc : _get_config st key = .ok config)
    (hdev : config.dev_mode = false)
    (hm : _get_manifest settings fs st key = (.ok m, st1, n))
    (hsu : _get_static_url settings st1 key = (.ok su, st2)) :
    (∀ pre k e rest, m = pre ++ (k, e) :: rest →
        (∀ p ∈ pre, strHasSub p.1 config.legacy_polyfills_motif = false) →
        strHasSub k config.legacy_polyfills_motif = true →
        (generate_vite_legacy_polyfills settings fs st key kwargs).1 =
          .ok (_generate_script_tag (urljoin su e.file)
            (dictMerge [("nomodule", ""), ("crossorigin", "")] kwargs))) ∧
    ((∀ p ∈ m, strHasSub p.1 config.legacy_polyfills_motif = false) →
        (generate_vite_legacy_polyfills settings fs st key kwargs).1 =
          .error (.runtimeError ("Vite legacy polyfills not found in manifest at " ++
            config.get_computed_manifest_path settings))) := by
  constructor
  · intro pre k e rest hsplit hpre hk
    have hfind : findPolyfills config.legacy_polyfills_motif m = some (k, e) := by
      rw [hsplit]
      exact findPolyfills_append _ pre k e rest hpre hk
    simp only [generate_vite_legacy_polyfills, hc, hm, hsu, hdev, hfind,
      Bool.false_eq_true, if_false]
  · intro hall
    have hfind : findPolyfills config.legacy_polyfills_motif m = none :=
      findPolyfills_none _ m hall
    simp only [generate_vite_legacy_polyfills, hc, hm, hsu, hdev, hfind,
      Bool.false_eq_true, if_false]

/-- C9 witness: on the manifest with keys `main` then
`legacy-polyfills-abc`, in that insertion order, the helper returns the
nomodule/crossorigin script tag for `poly.js`, the file of the first key
containing the motif. -/
theorem c9_legacy_polyfills_production_scan_witness :
    (generate_vite_legacy_polyfills demoSettings legacyFs demoState "default" []).1 =
      .ok (_generate_script_tag (urljoin "/static/" "poly.js")
        (dictMerge [("nomodule", ""), ("crossorigin", "")] [])) := by
  have h := (c9_legacy_polyfills_production_scan demoSettings legacyFs demoState
    "default" [] demoConfig legacyManifest legacyStateLoaded 1 "/static/"
    legacyStateFull rfl rfl rfl rfl).1
  exact h [("main", { file := "main.js", src := "main" })] "legacy-polyfills-abc"
    { file := "poly.js", src := "poly" } [] rfl
    (by intro p hp; rw [List.mem_singleton] at hp; subst hp; decide)
    (by decide)

/-- C10: a generated script tag renders its attribute map as space-joined
key="value" pairs with src always appended last, and the attribute merge
of `generate_vite_asset` lets caller attributes override the default
`type` and `crossorigin` values while both defaults are present when not
overridden. -/
theorem c10_script_tag_rendering_and_attr_merge (src : String)
    (attrs kwargs : List (String × String))
    (hk : (kwargs.map Prod.fst).Nodup) :
    _generate_script_tag src attrs =
      "<script " ++ joinSep " " (attrs.map (fun p => p.1 ++ "=\"" ++ p.2 ++ "\"")) ++
        " src=\"" ++ src ++ "\"></script>" ∧
    dictLookup (scriptsAttrs kwargs) "type" =
      Option.orElse (dictLookup kwargs "type") (fun _ => some "module") ∧
    dictLookup (scriptsAttrs kwargs) "crossorigin" =
      Option.orElse (dictLookup kwargs "crossorigin") (fun _ => some "") := by
  refine ⟨rfl, ?_, ?_⟩
  · rw [scriptsAttrs, dictLookup_dictMerge kwargs _ hk "type"]
    rfl
  · rw [scriptsAttrs, dictLookup_dictMerge kwargs _ hk "crossorigin"]
    rfl

/-- C10 witness: a caller-supplied type overrides the module default, and
with no caller attributes the crossorigin default is present; the sample
tag renders with src last. -/
theorem c10_script_tag_rendering_and_attr_merge_witness :
    dictLookup (scriptsAttrs [("type", "text/javascript")]) "type" =
      some "text/javascript" ∧
    dictLookup (scriptsAttrs []) "crossorigin" = some "" ∧
    _generate_script_tag "u.js" [("type", "module")] =
      "<script type=\"module\" src=\"u.js\"></script>" := by
  refine ⟨?_, ?_, ?_⟩
  · rw [(c10_script_tag_rendering_and_attr_merge "u.js" []
      [("type", "text/javascript")] (by simp)).2.1]
    rfl
  · rw [(c10_script_tag_rendering_and_attr_merge "u.js" [] [] (by simp)).2.2]
    rfl
  · rw [(c10_script_tag_rendering_and_attr_merge "u.js" [("type", "module")] []
      (by simp)).1]
    rfl
